import Mathlib

/-!
# Verification of the tsparticles `Particle` core

Shallow embedding of `src/unnamed/part_000` (the `Particle` class of the
tsparticles engine): the lifecycle state machine (`destroy` / `split`),
the placement algorithm (`calcPosition` / `checkOverlap` / `fixOutMode`),
the size-animation initialisation fragment of the constructor, the shape
selection, and the z-ordering bookkeeping on the owning particle set.

Numbers are modelled as rationals (`ℚ`); JavaScript numbers in the source
are only compared and combined with `+`, `-`, `*`, `/` on the paths
embedded here, so `ℚ` is a faithful executable carrier.  Randomness is
modelled by explicit sample parameters (a draw `u ∈ [0,1)` per
`Math.random()` call site).  Helper functions from `Utils/NumberUtils`
and `Utils/Utils` are not under `src/`; they are modelled from the spec
where noted.
-/

namespace TSP

/-- 2D coordinates (`ICoordinates` in the source). -/
structure ICoordinates where
  x : ℚ
  y : ℚ
  deriving DecidableEq

/-- 3D coordinates (`Vector3d.create(x, y, z)` results in the source). -/
structure Vector3d where
  x : ℚ
  y : ℚ
  z : ℚ
  deriving DecidableEq

/-- Squared Euclidean distance between two 2D points.  The source's
`getDistance` is `Math.sqrt` of this quantity; comparisons against it are
expressed through `distLtB` below. -/
def distSq (a b : ICoordinates) : ℚ :=
  (a.x - b.x) ^ 2 + (a.y - b.y) ^ 2

/-- Modelled from the spec: the overlap scan rejects a candidate when an
existing particle "is closer than the sum of the two radii"
(`getDistance(pos, particle.position) < radius + particle.getRadius()` in
the source; `getDistance` lives in `Utils/NumberUtils`, not under `src/`).
`distLtB a b s` decides `Real.sqrt (distSq a b) < s` over `ℚ`:
the square root is below `s` iff `s` is positive and the squared distance
is below `s ^ 2` (see `distLtB_iff_sqrt_lt`). -/
def distLtB (a b : ICoordinates) (s : ℚ) : Bool :=
  decide (0 < s ∧ distSq a b < s ^ 2)

theorem distSq_nonneg (a b : ICoordinates) : 0 ≤ distSq a b := by
  have h1 : (0:ℚ) ≤ (a.x - b.x) ^ 2 := sq_nonneg _
  have h2 : (0:ℚ) ≤ (a.y - b.y) ^ 2 := sq_nonneg _
  simpa [distSq] using add_nonneg h1 h2

theorem distLtB_iff_sqrt_lt (a b : ICoordinates) (s : ℚ) :
    distLtB a b s = true ↔ Real.sqrt ((distSq a b : ℚ) : ℝ) < (s : ℝ) := by
  constructor
  · intro h
    have h' : 0 < s ∧ distSq a b < s ^ 2 := of_decide_eq_true h
    have hs : (0:ℝ) < (s : ℝ) := by exact_mod_cast h'.1
    have hd : ((distSq a b : ℚ) : ℝ) < (s : ℝ) ^ 2 := by exact_mod_cast h'.2
    exact (Real.sqrt_lt' hs).mpr hd
  · intro h
    have hnn : (0:ℝ) ≤ Real.sqrt ((distSq a b : ℚ) : ℝ) := Real.sqrt_nonneg _
    have hs : (0:ℝ) < (s : ℝ) := lt_of_le_of_lt hnn h
    have hd : ((distSq a b : ℚ) : ℝ) < (s : ℝ) ^ 2 := (Real.sqrt_lt' hs).mp h
    have h1 : 0 < s := by exact_mod_cast hs
    have h2 : distSq a b < s ^ 2 := by exact_mod_cast hd
    exact decide_eq_true ⟨h1, h2⟩

theorem distLtB_eq_false_iff (a b : ICoordinates) (s : ℚ) :
    distLtB a b s = false ↔ (s : ℝ) ≤ Real.sqrt ((distSq a b : ℚ) : ℝ) := by
  rw [← not_lt, ← distLtB_iff_sqrt_lt]
  cases h : distLtB a b s <;> simp [h]

/-! ## Range-valued options

`RangeValue` options are a plain number or a `{min, max}` object.
The resolvers live in `Utils/NumberUtils`, not under `src/`. -/

/-- A range-valued option: a single number or a `{min, max}` object. -/
inductive RangeValue where
  | single (v : ℚ)
  | range (lo hi : ℚ)
  deriving DecidableEq

/-- Modelled from the spec: the minimum of a range-valued option
(`getRangeMin` of `Utils/NumberUtils`, not under `src/`). -/
def getRangeMin : RangeValue → ℚ
  | .single v => v
  | .range lo _ => lo

/-- Modelled from the spec: the maximum of a range-valued option
(`getRangeMax` of `Utils/NumberUtils`, not under `src/`). -/
def getRangeMax : RangeValue → ℚ
  | .single v => v
  | .range _ hi => hi

/-- Modelled from the spec: "uniformly sample within [min, max]" —
`randomInRange` of `Utils/NumberUtils` (not under `src/`), with the
`Math.random()` draw `u ∈ [0,1)` made explicit. -/
def randomInRange (lo hi u : ℚ) : ℚ :=
  lo + u * (hi - lo)

/-- Modelled from the spec: a range-valued option resolves to its fixed
value, or to a uniform sample within the range (`getRangeValue` of
`Utils/NumberUtils`, not under `src/`); `u` is the `Math.random()` draw. -/
def getRangeValue (r : RangeValue) (u : ℚ) : ℚ :=
  match r with
  | .single v => v
  | .range lo hi => randomInRange lo hi u

/-! ## Lifecycle: `destroy` and `split` -/

/-- `DestroyMode` enum (only `split` is inspected by `Particle.destroy`). -/
inductive DestroyMode where
  | none
  | split
  deriving DecidableEq

/-- The `options.destroy.split` sub-options used by `Particle.split`:
`count` is the split-generation limit (negative means unbounded) and
`rate` is the resolved number of children requested per fan-out
(`getValue(splitOptions.rate)` — modelled from the spec as an already
resolved "fixed or range-sampled value"; the child option template
selection feeds `addSplitParticle` and carries no state, so it is not
tracked here). -/
structure SplitOptions where
  count : ℤ
  rate : ℕ
  deriving DecidableEq

/-- The `options.destroy` sub-options inspected by `Particle.destroy`. -/
structure DestroyOptions where
  mode : DestroyMode
  split : SplitOptions
  deriving DecidableEq

/-- The lifecycle-relevant mutable state of a `Particle`: the `destroyed`
terminal flag, the `unbreakable` guard, the `bubble.inRange` interaction
flag cleared by `destroy`, and the `splitCount` fan-out counter. -/
structure ParticleLifecycle where
  destroyed : Bool
  unbreakable : Bool
  bubbleInRange : Bool
  splitCount : ℕ
  deriving DecidableEq

/-- The externally observable effects of one `destroy` call:
`pluginHooks` is the number of `particleDestroyed` plugin hook
invocations (one per registered plugin implementing the hook) and
`children` the number of `addSplitParticle` requests made to the
set-manager. -/
structure DestroyEffects where
  pluginHooks : ℕ
  children : ℕ
  deriving DecidableEq

/-- The lifecycle fields as the constructor sets them
(`this.destroyed = false`, `this.unbreakable = false`,
`this.splitCount = 0`, `this.bubble = { inRange: false }`). -/
def Particle.initLifecycle : ParticleLifecycle :=
  { destroyed := false, unbreakable := false, bubbleInRange := false, splitCount := 0 }

/-- `Particle.split`: the guard
`if (splitOptions.count >= 0 && this.splitCount++ > splitOptions.count) return;`
post-increments `splitCount` (the comparison sees the old value, and the
short-circuit skips the increment when `count < 0`), then requests `rate`
children.  Returns the new state and the number of children requested. -/
def Particle.split (opts : SplitOptions) (p : ParticleLifecycle) :
    ParticleLifecycle × ℕ :=
  if 0 ≤ opts.count then
    if (p.splitCount : ℤ) > opts.count then
      ({ p with splitCount := p.splitCount + 1 }, 0)
    else
      ({ p with splitCount := p.splitCount + 1 }, opts.rate)
  else
    (p, opts.rate)

/-- `Particle.destroy(override?)`: no-op when `unbreakable` or already
`destroyed`; otherwise sets `destroyed`, clears `bubble.inRange`, fires
every plugin's `particleDestroyed` hook (`plugins` of them), and — unless
`override` — fans out via `split` when the destroy mode is `split`. -/
def Particle.destroy (plugins : ℕ) (opts : DestroyOptions)
    (p : ParticleLifecycle) (override : Bool) :
    ParticleLifecycle × DestroyEffects :=
  if p.unbreakable || p.destroyed then
    (p, { pluginHooks := 0, children := 0 })
  else
    let p1 : ParticleLifecycle :=
      { p with destroyed := true, bubbleInRange := false }
    if override then
      (p1, { pluginHooks := plugins, children := 0 })
    else if opts.mode = DestroyMode.split then
      let r := Particle.split opts.split p1
      (r.1, { pluginHooks := plugins, children := r.2 })
    else
      (p1, { pluginHooks := plugins, children := 0 })

/-! ## Placement: `fixOutMode`, `checkOverlap`, `calcPosition` -/

/-- The `OutMode` enum (plus the `OutModeAlt` values
`bounceHorizontal` / `bounceVertical`). -/
inductive OutMode where
  | bounce
  | bounceHorizontal
  | bounceVertical
  | out
  | destroy
  | split
  | none
  deriving DecidableEq

/-- Modelled from the spec: `isInArray` of `Utils/Utils` (not under
`src/`) is a plain membership test of a value in an option array. -/
def isInArray (m : OutMode) (l : List OutMode) : Bool :=
  l.any (fun o => o = m)

/-- The argument record of the module-level `fixOutMode` helper. -/
structure FixOutModeData where
  checkModes : List OutMode
  coord : ℚ
  maxCoord : ℚ
  outMode : OutMode
  radius : ℚ

/-- The module-level `fixOutMode` helper: when the out mode is one of the
checked bounce modes, a coordinate beyond `maxCoord - radius * 2` gets
`-radius` added and a coordinate below `radius * 2` gets `+radius` added
(the source invokes `setCb` with the delta; here the new coordinate is
returned).  The duplicated disjunct mirrors the source's
`isInArray(..) || isInArray(..)` condition verbatim. -/
def fixOutMode (d : FixOutModeData) : ℚ :=
  if !(isInArray d.outMode d.checkModes || isInArray d.outMode d.checkModes) then
    d.coord
  else if d.coord > d.maxCoord - d.radius * 2 then
    d.coord + (-d.radius)
  else if d.coord < d.radius * 2 then
    d.coord + d.radius
  else
    d.coord

/-- The `fixHorizontal` closure of `calcPosition`: one horizontal bounce
check against the canvas width, reading the current `pos.x`. -/
def fixHorizontal (width radius : ℚ) (outMode : OutMode) (x : ℚ) : ℚ :=
  fixOutMode
    { checkModes := [OutMode.bounce, OutMode.bounceHorizontal]
      coord := x
      maxCoord := width
      outMode := outMode
      radius := radius }

/-- The `fixVertical` closure of `calcPosition`: one vertical bounce
check against the canvas height, reading the current `pos.y`. -/
def fixVertical (height radius : ℚ) (outMode : OutMode) (y : ℚ) : ℚ :=
  fixOutMode
    { checkModes := [OutMode.bounce, OutMode.bounceVertical]
      coord := y
      maxCoord := height
      outMode := outMode
      radius := radius }

/-- The `options.move.outModes` object: per-edge overrides falling back
to a shared default (`outModes.left ?? outModes.default`, etc.). -/
structure OutModes where
  dflt : OutMode
  left : Option OutMode
  right : Option OutMode
  top : Option OutMode
  bottom : Option OutMode

/-- One existing particle of `container.particles.array` as the overlap
scan sees it: its 2D position and its `getRadius()` value. -/
structure ExistingParticle where
  pos : ICoordinates
  radius : ℚ

/-- A registered container plugin's `particlePosition` hook: `none` when
the plugin does not implement the hook, otherwise a function from the
optional explicit position to an optional override position. -/
def PluginPositionHook : Type :=
  Option (Option ICoordinates → Option ICoordinates)

/-- The plugin loop heading `calcPosition`: the first plugin whose
`particlePosition` hook is defined and returns a non-`undefined` position
wins. -/
def pluginFirst : List PluginPositionHook → Option ICoordinates → Option ICoordinates
  | [], _ => Option.none
  | h :: rest, pos =>
    match h with
    | Option.none => pluginFirst rest pos
    | Option.some f =>
      match f pos with
      | Option.some c => Option.some c
      | Option.none => pluginFirst rest pos

/-- `bubble.radius ?? this.size.value` — the particle's current radius. -/
def getRadius (bubbleRadius : Option ℚ) (sizeValue : ℚ) : ℚ :=
  bubbleRadius.getD sizeValue

/-- Modelled from the spec: `calcExactPositionOrRandomFromSize` of
`Utils/NumberUtils` (not under `src/`) uses "the caller-supplied explicit
position" when given, else samples `(x, y)` uniformly within the canvas;
the per-attempt random draw is `sample tryCount`. -/
def calcExactPositionOrRandomFromSize (sample : ℕ → ICoordinates)
    (tryCount : ℕ) (position : Option ICoordinates) : ICoordinates :=
  position.getD (sample tryCount)

/-- Everything `calcPosition` / `checkOverlap` read from `this` and the
container: canvas size, the registered plugins' `particlePosition` hooks,
the resolved out modes, `options.collisions.enable`,
`options.collisions.overlap.enable`, `options.collisions.overlap.retries`,
the live particle collection, the fields behind `this.getRadius()`, and
the random position sampler. -/
structure PlacementConfig where
  canvasWidth : ℚ
  canvasHeight : ℚ
  plugins : List PluginPositionHook
  outModes : OutModes
  collisionsEnable : Bool
  overlapEnable : Bool
  retries : ℤ
  existing : List ExistingParticle
  bubbleRadius : Option ℚ
  sizeValue : ℚ
  sample : ℕ → ICoordinates

/-- The overlap scan body: some existing particle is closer than the sum
of the two radii. -/
def overlapsAny (cfg : PlacementConfig) (pos : ICoordinates) : Bool :=
  cfg.existing.any fun q =>
    distLtB pos q.pos (getRadius cfg.bubbleRadius cfg.sizeValue + q.radius)

/-- `Particle.checkOverlap(pos, tryCount)`: `false` when collisions are
disabled or overlap is allowed; throws (modelled as `Except.error`
carrying the number of previously completed attempts) when a
non-negative retry limit is exceeded (`retries >= 0 && tryCount >
retries`); else scans every existing particle. -/
def checkOverlap (cfg : PlacementConfig) (pos : ICoordinates)
    (tryCount : ℕ) : Except ℕ Bool :=
  if !cfg.collisionsEnable then
    .ok false
  else if cfg.overlapEnable then
    .ok false
  else if 0 ≤ cfg.retries ∧ (tryCount : ℤ) > cfg.retries then
    .error tryCount
  else
    .ok (overlapsAny cfg pos)

/-- Outcome of `calcPosition`: a placed position, the
placement-exhausted error (carrying the number of fully scanned
placement attempts made before the throw), or fuel exhaustion of the
embedding (the source recursion has no intrinsic bound when the retry
limit is negative). -/
inductive PlacementResult where
  | placed (p : Vector3d)
  | exhausted (attempts : ℕ)
  | fuelOut
  deriving DecidableEq

/-- The four per-edge bounce fixes of `calcPosition`, applied in source
order — left, right, top, bottom — with each check reading the
coordinate the previous check left (the source's `setCb` mutates `pos`
between the calls). -/
def fixCandidate (cfg : PlacementConfig) (exact : ICoordinates) : ICoordinates :=
  let radius := getRadius cfg.bubbleRadius cfg.sizeValue
  let x1 := fixHorizontal cfg.canvasWidth radius
    (cfg.outModes.left.getD cfg.outModes.dflt) exact.x
  let x2 := fixHorizontal cfg.canvasWidth radius
    (cfg.outModes.right.getD cfg.outModes.dflt) x1
  let y1 := fixVertical cfg.canvasHeight radius
    (cfg.outModes.top.getD cfg.outModes.dflt) exact.y
  let y2 := fixVertical cfg.canvasHeight radius
    (cfg.outModes.bottom.getD cfg.outModes.dflt) y1
  ⟨x2, y2⟩

/-- `Particle.calcPosition(container, position, zIndex, tryCount)`:
ask every plugin for a position override (first non-`undefined` answer is
returned as-is with the given z); otherwise take the explicit position or
a fresh sample, run the four per-edge bounce fixes (`fixCandidate`), and
scan for overlap; on overlap recurse with `undefined` position and
`tryCount + 1`.  `fuel` bounds the recursion depth of the embedding. -/
def calcPosition (cfg : PlacementConfig) (position : Option ICoordinates)
    (zIndex : ℚ) (tryCount : ℕ) : ℕ → PlacementResult
  | 0 => .fuelOut
  | fuel + 1 =>
    match pluginFirst cfg.plugins position with
    | Option.some c => .placed ⟨c.x, c.y, zIndex⟩
    | Option.none =>
      let pos : ICoordinates :=
        fixCandidate cfg (calcExactPositionOrRandomFromSize cfg.sample tryCount position)
      match checkOverlap cfg pos tryCount with
      | .error n => .exhausted n
      | .ok true => calcPosition cfg Option.none zIndex (tryCount + 1) fuel
      | .ok false => .placed ⟨pos.x, pos.y, zIndex⟩

/-! ## Constructor fragment: size animation initial state -/

/-- The `AnimationStatus` enum. -/
inductive AnimationStatus where
  | increasing
  | decreasing
  deriving DecidableEq

/-- The `StartValueType` enum. -/
inductive StartValueType where
  | min
  | random
  | max
  deriving DecidableEq

/-- The `options.size.animation` fields read by the constructor. -/
structure SizeAnimationOptions where
  enable : Bool
  startValue : StartValueType
  decay : RangeValue
  count : RangeValue
  sync : Bool

/-- The `options.size` fields read by the constructor. -/
structure SizeOptions where
  value : RangeValue
  animation : SizeAnimationOptions

/-- The constructed `this.size` state
(`IParticleNumericValueAnimation`); `status`, `decay` and `velocity`
stay unset when the animation is disabled. -/
structure SizeState where
  enable : Bool
  value : ℚ
  max : ℚ
  min : ℚ
  loops : ℕ
  maxLoops : ℚ
  status : Option AnimationStatus
  decay : Option ℚ
  velocity : Option ℚ
  deriving DecidableEq

/-- The size-initialisation fragment of the `Particle` constructor.
The random draws of the fragment are explicit: `u0` resolves
`getRangeValue(sizeOptions.value)`, `uCount` the animation count,
`uDecay` the animation decay, `uRand` the `randomInRange(this.size)`
sample of the `random` start value, `uCoin` the `Math.random() >= 0.5`
status coin, and `uSync` the unsynced velocity factor.  Note the
`random` branch multiplies the sample — drawn from the already
pixel-ratio-scaled `[this.size.min, this.size.max]` — by `pxr`
again, exactly as the source does.  `retinaSizeAnimationSpeed` is
`this.retina.sizeAnimationSpeed`, falling back to the container's. -/
def initSize (opts : SizeOptions) (pxr : ℚ)
    (retinaSizeAnimationSpeed : Option ℚ)
    (containerSizeAnimationSpeed reduceFactor : ℚ)
    (u0 uCount uDecay uRand uCoin uSync : ℚ) : SizeState :=
  let base : SizeState :=
    { enable := opts.animation.enable
      value := getRangeValue opts.value u0 * pxr
      max := getRangeMax opts.value * pxr
      min := getRangeMin opts.value * pxr
      loops := 0
      maxLoops := getRangeValue opts.animation.count uCount
      status := Option.none
      decay := Option.none
      velocity := Option.none }
  if opts.animation.enable then
    let s1 : SizeState :=
      { base with
        status := Option.some AnimationStatus.increasing
        decay := Option.some (1 - getRangeValue opts.animation.decay uDecay) }
    let s2 : SizeState :=
      match opts.animation.startValue with
      | StartValueType.min =>
        { s1 with
          value := s1.min
          status := Option.some AnimationStatus.increasing }
      | StartValueType.random =>
        { s1 with
          value := randomInRange s1.min s1.max uRand * pxr
          status := Option.some (if uCoin ≥ 1/2 then AnimationStatus.increasing
                                 else AnimationStatus.decreasing) }
      | StartValueType.max =>
        { s1 with
          value := s1.max
          status := Option.some AnimationStatus.decreasing }
    let vel :=
      retinaSizeAnimationSpeed.getD containerSizeAnimationSpeed / 100 * reduceFactor
    { s2 with
      velocity := Option.some (if opts.animation.sync then vel else vel * uSync) }
  else
    base

/-! ## Constructor fragment: shape selection -/

/-- An option field holding one value or an array of candidates
(`SingleOrMultiple` in the source). -/
inductive SingleOrMultiple (α : Type) where
  | single (s : α)
  | multiple (l : List α)

/-- Modelled from the spec: `itemFromArray` of `Utils/Utils` (not under
`src/`) — the candidate "at index (id mod array length)" when the
"reduce duplicates" mode is disabled, and "a random pick" (`rnd` is the
random index draw) when it is enabled. -/
def itemFromArray (l : List String) (id : ℕ) (reduceDuplicates : Bool)
    (rnd : ℕ) : Option String :=
  if reduceDuplicates then
    l.get? (rnd % l.length)
  else
    l.get? (id % l.length)

/-- The shape-type resolution of the constructor:
`shapeType instanceof Array ? itemFromArray(shapeType, this.id,
reduceDuplicates) : shapeType`. -/
def selectShape (shapeType : SingleOrMultiple String) (id : ℕ)
    (reduceDuplicates : Bool) (rnd : ℕ) : Option String :=
  match shapeType with
  | .single s => Option.some s
  | .multiple l => itemFromArray l id reduceDuplicates rnd

/-! ## Constructor fragment: z-ordering bookkeeping on the owning set -/

/-- The two set-manager-owned fields the constructor mutates:
`particles.needsSort` and `particles.lastZIndex`. -/
structure ParticlesZState where
  needsSort : Bool
  lastZIndex : ℚ
  deriving DecidableEq

/-- The two z-bookkeeping lines of the constructor:
`particles.needsSort = particles.needsSort || particles.lastZIndex <
this.position.z; particles.lastZIndex = this.position.z;`. -/
def reportZ (s : ParticlesZState) (z : ℚ) : ParticlesZState :=
  { needsSort := s.needsSort || decide (s.lastZIndex < z)
    lastZIndex := z }

/-- The spec's words, for comparison with `reportZ`: a "high-water mark
of the z coordinates seen" is the running maximum of the recorded value
over the constructed particles' z coordinates. -/
def specHighWaterZ (init : ℚ) (zs : List ℚ) : ℚ :=
  zs.foldl max init

/-! ## Concrete scenario configurations -/

/-- The C2 scenario: canvas 800×600, no plugins, out mode `bounce` on
all four edges, collisions disabled, particle radius 10 (no bubble
override). -/
def bounceScenarioCfg : PlacementConfig :=
  { canvasWidth := 800
    canvasHeight := 600
    plugins := []
    outModes :=
      { dflt := OutMode.bounce
        left := Option.some OutMode.bounce
        right := Option.some OutMode.bounce
        top := Option.some OutMode.bounce
        bottom := Option.some OutMode.bounce }
    collisionsEnable := false
    overlapEnable := false
    retries := 0
    existing := []
    bubbleRadius := Option.none
    sizeValue := 10
    sample := fun _ => ⟨0, 0⟩ }

/-- A configuration where a registered plugin overrides placement with
`(0, 0)` while collisions are enabled, overlap is disallowed, the retry
limit is 0, and an existing particle of radius 5 already sits at
`(0, 0)` (the new particle's radius is 5 as well). -/
def pluginOverlapCfg : PlacementConfig :=
  { canvasWidth := 100
    canvasHeight := 100
    plugins := [Option.some (fun _ => Option.some ⟨0, 0⟩)]
    outModes :=
      { dflt := OutMode.out
        left := Option.none
        right := Option.none
        top := Option.none
        bottom := Option.none }
    collisionsEnable := true
    overlapEnable := false
    retries := 0
    existing := [{ pos := ⟨0, 0⟩, radius := 5 }]
    bubbleRadius := Option.none
    sizeValue := 5
    sample := fun _ => ⟨0, 0⟩ }

/-- A plugin-free configuration with collisions enabled, overlap
disallowed, retry limit 0, an existing particle of radius 5 at `(0, 0)`
and a sampler that always proposes the overlapping point `(0, 0)`. -/
def overlapAlwaysCfg : PlacementConfig :=
  { canvasWidth := 100
    canvasHeight := 100
    plugins := []
    outModes :=
      { dflt := OutMode.out
        left := Option.none
        right := Option.none
        top := Option.none
        bottom := Option.none }
    collisionsEnable := true
    overlapEnable := false
    retries := 0
    existing := [{ pos := ⟨0, 0⟩, radius := 5 }]
    bubbleRadius := Option.none
    sizeValue := 5
    sample := fun _ => ⟨0, 0⟩ }

/-- The C6 options: configured size range `[2, 10]`, animation enabled
with `startValue: "random"`. -/
def randomSizeOpts : SizeOptions :=
  { value := RangeValue.range 2 10
    animation :=
      { enable := true
        startValue := StartValueType.random
        decay := RangeValue.single 0
        count := RangeValue.single 0
        sync := true } }

/-- The C6 scenario options: configured size range `[2, 10]`, animation
enabled with `startValue: "min"`. -/
def minSizeOpts : SizeOptions :=
  { value := RangeValue.range 2 10
    animation :=
      { enable := true
        startValue := StartValueType.min
        decay := RangeValue.single 0
        count := RangeValue.single 0
        sync := true } }

/-! ## Lifecycle theorems -/

theorem split_fst_destroyed (s : SplitOptions) (p : ParticleLifecycle) :
    (Particle.split s p).1.destroyed = p.destroyed := by
  unfold Particle.split
  split
  · split <;> rfl
  · rfl

theorem destroy_of_destroyed (n : ℕ) (opts : DestroyOptions)
    (p : ParticleLifecycle) (o : Bool) (h : p.destroyed = true) :
    Particle.destroy n opts p o = (p, ⟨0, 0⟩) := by
  simp [Particle.destroy, h]

theorem destroy_fst_destroyed (n : ℕ) (opts : DestroyOptions)
    (p : ParticleLifecycle) (o : Bool) (hu : p.unbreakable = false)
    (hd : p.destroyed = false) :
    (Particle.destroy n opts p o).1.destroyed = true := by
  simp only [Particle.destroy, hu, hd, Bool.or_self, Bool.false_eq_true, if_false]
  split
  · rfl
  · split
    · exact split_fst_destroyed _ _
    · rfl

/-- Claim C4: for every constructed particle, `destroyed` is false
immediately after construction; calling `destroy()` a second time on the
result of a first `destroy()` changes no state, invokes no plugin hook
and requests no children (so `destroy(); destroy()` is equivalent to
`destroy()`), and `destroy` on an already-destroyed particle is a
complete no-op (monotonicity: `destroyed` never reverts to false). -/
theorem destroyed_init_monotone_idempotent :
    Particle.initLifecycle.destroyed = false ∧
    (∀ (n : ℕ) (opts : DestroyOptions) (p : ParticleLifecycle) (o : Bool),
      p.destroyed = true → Particle.destroy n opts p o = (p, ⟨0, 0⟩)) ∧
    (∀ (n : ℕ) (opts : DestroyOptions) (p : ParticleLifecycle) (o o' : Bool),
      Particle.destroy n opts (Particle.destroy n opts p o).1 o' =
        ((Particle.destroy n opts p o).1, ⟨0, 0⟩)) := by
  refine ⟨rfl, destroy_of_destroyed, ?_⟩
  intro n opts p o o'
  by_cases hu : p.unbreakable = true
  · simp [Particle.destroy, hu]
  · by_cases hd : p.destroyed = true
    · simp [Particle.destroy, hd]
    · exact destroy_of_destroyed n opts _ o'
        (destroy_fst_destroyed n opts p o
          (Bool.not_eq_true _ ▸ hu) (Bool.not_eq_true _ ▸ hd))

/-- Witness for C4 at concrete particles: a second `destroy` on a
destroyed particle is a no-op with no effects. -/
theorem destroyed_init_monotone_idempotent_witness :
    Particle.destroy 2 ⟨DestroyMode.split, ⟨1, 3⟩⟩
        { destroyed := true, unbreakable := false, bubbleInRange := false, splitCount := 2 }
        false =
      ({ destroyed := true, unbreakable := false, bubbleInRange := false, splitCount := 2 },
        ⟨0, 0⟩) ∧
    Particle.destroy 2 ⟨DestroyMode.split, ⟨1, 3⟩⟩
        (Particle.destroy 2 ⟨DestroyMode.split, ⟨1, 3⟩⟩ Particle.initLifecycle false).1
        false =
      ((Particle.destroy 2 ⟨DestroyMode.split, ⟨1, 3⟩⟩ Particle.initLifecycle false).1,
        ⟨0, 0⟩) :=
  ⟨destroyed_init_monotone_idempotent.2.1 2 ⟨DestroyMode.split, ⟨1, 3⟩⟩
      { destroyed := true, unbreakable := false, bubbleInRange := false, splitCount := 2 }
      false rfl,
    destroyed_init_monotone_idempotent.2.2 2 ⟨DestroyMode.split, ⟨1, 3⟩⟩
      Particle.initLifecycle false false⟩

/-- Claim C5: for every particle with `unbreakable = true`, `destroy()`
(with any argument) never sets `destroyed` to true — the flag is left
exactly as it was. -/
theorem unbreakable_never_destroyed (n : ℕ) (opts : DestroyOptions)
    (p : ParticleLifecycle) (o : Bool) (h : p.unbreakable = true) :
    (Particle.destroy n opts p o).1.destroyed = p.destroyed := by
  simp [Particle.destroy, h]

/-- Witness for C5: a fresh unbreakable particle stays undestroyed. -/
theorem unbreakable_never_destroyed_witness :
    (Particle.destroy 1 ⟨DestroyMode.split, ⟨3, 2⟩⟩
        { destroyed := false, unbreakable := true, bubbleInRange := true, splitCount := 0 }
        false).1.destroyed = false :=
  unbreakable_never_destroyed 1 ⟨DestroyMode.split, ⟨3, 2⟩⟩
    { destroyed := false, unbreakable := true, bubbleInRange := true, splitCount := 0 }
    false rfl

/-- Claim C10: `destroy()` on an `unbreakable` particle is a complete
no-op even when `override` is true: the state (including
`bubble.inRange`) is unchanged, no `particleDestroyed` plugin hook is
invoked, and no split children are requested. -/
theorem unbreakable_destroy_noop (n : ℕ) (opts : DestroyOptions)
    (p : ParticleLifecycle) (o : Bool) (h : p.unbreakable = true) :
    Particle.destroy n opts p o = (p, ⟨0, 0⟩) := by
  simp [Particle.destroy, h]

/-- Witness for C10 with `override = true` and registered plugins. -/
theorem unbreakable_destroy_noop_witness :
    Particle.destroy 3 ⟨DestroyMode.split, ⟨2, 5⟩⟩
        { destroyed := false, unbreakable := true, bubbleInRange := true, splitCount := 1 }
        true =
      ({ destroyed := false, unbreakable := true, bubbleInRange := true, splitCount := 1 },
        ⟨0, 0⟩) :=
  unbreakable_destroy_noop 3 ⟨DestroyMode.split, ⟨2, 5⟩⟩
    { destroyed := false, unbreakable := true, bubbleInRange := true, splitCount := 1 }
    true rfl

/-- Counterexample to claim C3 as stated: with destroy mode `split`,
limit `count = 0` and `rate = 2`, a particle whose `splitCount` is
already at the configured limit (0) produces 2 children (not zero) when
`destroy()` is called, and its `splitCount` rises to 1, exceeding the
limit. -/
theorem split_at_limit_counterexample :
    (Particle.destroy 0 ⟨DestroyMode.split, ⟨0, 2⟩⟩
        { destroyed := false, unbreakable := false, bubbleInRange := false, splitCount := 0 }
        false).2.children = 2 ∧
    ¬ ((Particle.destroy 0 ⟨DestroyMode.split, ⟨0, 2⟩⟩
        { destroyed := false, unbreakable := false, bubbleInRange := false, splitCount := 0 }
        false).2.children = 0) ∧
    (Particle.destroy 0 ⟨DestroyMode.split, ⟨0, 2⟩⟩
        { destroyed := false, unbreakable := false, bubbleInRange := false, splitCount := 0 }
        false).1.splitCount = 1 ∧
    ¬ ((Particle.destroy 0 ⟨DestroyMode.split, ⟨0, 2⟩⟩
        { destroyed := false, unbreakable := false, bubbleInRange := false, splitCount := 0 }
        false).1.splitCount ≤ 0) := by
  refine ⟨rfl, by decide, rfl, by decide⟩

/-- Claim C3, amended: with destroy mode `split` and a non-negative
limit `count`, a non-override `destroy()` produces `rate` children when
`splitCount ≤ count` at call time (in particular a particle exactly at
the limit still fans out) and zero children when `splitCount > count`;
in either case `splitCount` is post-incremented, so it can reach
`count + 1` — it exceeds the configured limit by at most one. -/
theorem split_limit_amended (n : ℕ) (opts : DestroyOptions)
    (p : ParticleLifecycle) (hmode : opts.mode = DestroyMode.split)
    (hcount : 0 ≤ opts.split.count) (hd : p.destroyed = false)
    (hu : p.unbreakable = false) :
    (Particle.destroy n opts p false).2.children =
      (if (p.splitCount : ℤ) ≤ opts.split.count then opts.split.rate else 0) ∧
    (Particle.destroy n opts p false).1.splitCount = p.splitCount + 1 ∧
    ((p.splitCount : ℤ) ≤ opts.split.count →
      ((Particle.destroy n opts p false).1.splitCount : ℤ) ≤ opts.split.count + 1) := by
  simp only [Particle.destroy, hu, hd, Bool.or_self, Bool.false_eq_true, if_false,
    Bool.false_eq_true, hmode, if_pos, Particle.split, hcount, if_true]
  by_cases hsc : (p.splitCount : ℤ) > opts.split.count
  · simp only [hsc, if_pos, if_neg (not_le.mpr hsc)]
    refine ⟨by trivial, by trivial, fun h => by omega⟩
  · simp only [hsc, if_neg hsc, if_pos (not_lt.mp hsc)]
    refine ⟨by trivial, by trivial, fun h => by simp only [if_false]; omega⟩

/-- Witness for the amended C3: limit 1, particle at `splitCount = 1`
(exactly the limit) spawns its 2 children and ends at `splitCount = 2`. -/
theorem split_limit_amended_witness :
    (Particle.destroy 0 ⟨DestroyMode.split, ⟨1, 2⟩⟩
        { destroyed := false, unbreakable := false, bubbleInRange := false, splitCount := 1 }
        false).2.children =
      (if ((1 : ℕ) : ℤ) ≤ (1 : ℤ) then 2 else 0) ∧
    (Particle.destroy 0 ⟨DestroyMode.split, ⟨1, 2⟩⟩
        { destroyed := false, unbreakable := false, bubbleInRange := false, splitCount := 1 }
        false).1.splitCount = 1 + 1 ∧
    (((1 : ℕ) : ℤ) ≤ (1 : ℤ) →
      ((Particle.destroy 0 ⟨DestroyMode.split, ⟨1, 2⟩⟩
        { destroyed := false, unbreakable := false, bubbleInRange := false, splitCount := 1 }
        false).1.splitCount : ℤ) ≤ (1 : ℤ) + 1) :=
  split_limit_amended 0 ⟨DestroyMode.split, ⟨1, 2⟩⟩
    { destroyed := false, unbreakable := false, bubbleInRange := false, splitCount := 1 }
    rfl (by decide) rfl rfl

/-! ## Shape selection theorem -/

/-- Claim C7: with an array of shape candidates and "reduce duplicates"
disabled, the constructed shape is the candidate at index
`id mod length`, independent of the random draw (deterministic in the
id); for `["circle", "square"]`, ids 0 and 2 select `"circle"` and id 1
selects `"square"`. -/
theorem shape_id_indexed :
    (∀ (l : List String) (id rnd rnd' : ℕ),
      selectShape (SingleOrMultiple.multiple l) id false rnd =
          l.get? (id % l.length) ∧
      selectShape (SingleOrMultiple.multiple l) id false rnd =
        selectShape (SingleOrMultiple.multiple l) id false rnd') ∧
    (∀ rnd : ℕ, selectShape (SingleOrMultiple.multiple ["circle", "square"]) 0 false rnd =
      Option.some "circle") ∧
    (∀ rnd : ℕ, selectShape (SingleOrMultiple.multiple ["circle", "square"]) 2 false rnd =
      Option.some "circle") ∧
    (∀ rnd : ℕ, selectShape (SingleOrMultiple.multiple ["circle", "square"]) 1 false rnd =
      Option.some "square") :=
  ⟨fun _ _ _ _ => ⟨rfl, rfl⟩, fun _ => rfl, fun _ => rfl, fun _ => rfl⟩

/-! ## Z-ordering theorems -/

/-- Counterexample to claim C8 as stated: constructing particles with
z = 5 then z = 3 from the fresh set state leaves `lastZIndex = 3`,
whereas the high-water mark of the z coordinates seen is 5 — the
recorded last-z is not a high-water mark. -/
theorem lastZ_not_high_water_counterexample :
    (reportZ (reportZ ⟨false, 0⟩ 5) 3).lastZIndex = 3 ∧
    specHighWaterZ 0 [5, 3] = 5 ∧
    (reportZ (reportZ ⟨false, 0⟩ 5) 3).lastZIndex ≠ specHighWaterZ 0 [5, 3] := by
  refine ⟨rfl, ?_, ?_⟩
  · show max (max 0 5) 3 = 5
    norm_num
  · show (3 : ℚ) ≠ specHighWaterZ 0 [5, 3]
    show (3 : ℚ) ≠ max (max 0 5) 3
    norm_num

/-- Claim C8, amended: the needs-re-sort flag is set to true exactly
when the new particle's z exceeds the previously *recorded* z (the z of
the most recent construction, not the running maximum); once true it
stays true; and the recorded last-z is always the z of the most recent
construction. -/
theorem reportZ_amended :
    (∀ (s : ParticlesZState) (z : ℚ),
      (reportZ s z).needsSort = (s.needsSort || decide (s.lastZIndex < z)) ∧
      (reportZ s z).lastZIndex = z) ∧
    (∀ (s : ParticlesZState) (z : ℚ),
      s.needsSort = true → (reportZ s z).needsSort = true) ∧
    (∀ (s : ParticlesZState) (zs : List ℚ) (z : ℚ),
      (List.foldl reportZ s (zs ++ [z])).lastZIndex = z) := by
  refine ⟨fun s z => ⟨rfl, rfl⟩, ?_, ?_⟩
  · intro s z h
    simp [reportZ, h]
  · intro s zs z
    rw [List.foldl_append]
    rfl

/-- Witness for the amended C8 at concrete states. -/
theorem reportZ_amended_witness :
    (reportZ ⟨true, 7⟩ 2).needsSort = true :=
  reportZ_amended.2.1 ⟨true, 7⟩ 2 rfl

/-! ## Plugin position override (C9) -/

/-- Claim C9: if any registered plugin returns a position from its
`particlePosition` hook, `calcPosition` returns that position (with the
given z) immediately — for any collision or out-mode configuration, no
bounce snap and no overlap scan touch a plugin-supplied position. -/
theorem plugin_position_short_circuit (cfg : PlacementConfig)
    (position : Option ICoordinates) (z : ℚ) (t fuel : ℕ) (c : ICoordinates)
    (h : pluginFirst cfg.plugins position = Option.some c) :
    calcPosition cfg position z t (fuel + 1) =
      PlacementResult.placed ⟨c.x, c.y, z⟩ := by
  rw [calcPosition, h]

/-- Witness for C9: the plugin-supplied `(0, 0)` is returned verbatim
even though it overlaps the existing particle and the retry limit is 0. -/
theorem plugin_position_short_circuit_witness :
    calcPosition pluginOverlapCfg Option.none 7 0 (1 + 1) =
      PlacementResult.placed ⟨0, 0, 7⟩ :=
  plugin_position_short_circuit pluginOverlapCfg Option.none 7 0 1 ⟨0, 0⟩ rfl

/-! ## Bounce out-mode placement fix (C2) -/

/-- Counterexample to claim C2 as stated: for the canvas 800×600, a
particle placed at `(0, 0)` with radius 10 and out mode `bounce` on all
four edges, placement relocates the particle to `(20, 20)` — not to
`(10, 10)` as claimed: the left-edge check snaps x from 0 to 10, after
which the right-edge check reads the updated x = 10, still below
`2·radius = 20`, and snaps it inward by one more radius (and likewise
vertically). -/
theorem bounce_scenario_counterexample :
    calcPosition bounceScenarioCfg (Option.some ⟨0, 0⟩) 0 0 1 =
      PlacementResult.placed ⟨20, 20, 0⟩ ∧
    calcPosition bounceScenarioCfg (Option.some ⟨0, 0⟩) 0 0 1 ≠
      PlacementResult.placed ⟨10, 10, 0⟩ := by
  have h : calcPosition bounceScenarioCfg (Option.some ⟨0, 0⟩) 0 0 1 =
      PlacementResult.placed ⟨20, 20, 0⟩ := by
    rw [calcPosition]
    norm_num [bounceScenarioCfg, pluginFirst, calcExactPositionOrRandomFromSize,
      fixCandidate, fixHorizontal, fixVertical, fixOutMode, isInArray, getRadius,
      checkOverlap, overlapsAny]
  refine ⟨h, ?_⟩
  rw [h]
  simp only [ne_eq, PlacementResult.placed.injEq, Vector3d.mk.injEq, not_and]
  intro h20
  norm_num at h20

/-- Claim C2, amended: each single per-edge bounce check moves a
coordinate beyond `max − 2·radius` inward by exactly one radius and a
coordinate below `2·radius` inward by exactly one radius (and leaves it
unchanged otherwise); but with `bounce` on all four edges the check runs
once per edge — twice per axis, sequentially — so the scenario particle
at `(0, 0)` with radius 10 on the 800×600 canvas is relocated to
x = +20 and y = +20, each coordinate snapped once by each of the two
checks on its axis. -/
theorem bounce_snap_amended :
    (∀ w r x : ℚ, x > w - r * 2 →
      fixHorizontal w r OutMode.bounce x = x + (-r)) ∧
    (∀ w r x : ℚ, ¬(x > w - r * 2) → x < r * 2 →
      fixHorizontal w r OutMode.bounce x = x + r) ∧
    (∀ w r x : ℚ, ¬(x > w - r * 2) → ¬(x < r * 2) →
      fixHorizontal w r OutMode.bounce x = x) ∧
    calcPosition bounceScenarioCfg (Option.some ⟨0, 0⟩) 0 0 1 =
      PlacementResult.placed ⟨20, 20, 0⟩ := by
  refine ⟨?_, ?_, ?_, ?_⟩
  · intro w r x h
    simp [fixHorizontal, fixOutMode, isInArray, h]
  · intro w r x h1 h2
    simp [fixHorizontal, fixOutMode, isInArray, h1, h2]
  · intro w r x h1 h2
    simp [fixHorizontal, fixOutMode, isInArray, h1, h2]
  · rw [calcPosition]
    norm_num [bounceScenarioCfg, pluginFirst, calcExactPositionOrRandomFromSize,
      fixCandidate, fixHorizontal, fixVertical, fixOutMode, isInArray, getRadius,
      checkOverlap, overlapsAny]

/-- Witness for the amended C2: a single bounce check on the low side
moves x = 4 (radius 10, width 800) to 14. -/
theorem bounce_snap_amended_witness :
    fixHorizontal 800 10 OutMode.bounce 4 = 4 + 10 :=
  bounce_snap_amended.2.1 800 10 4 (by norm_num) (by norm_num)

/-! ## Size start value (C6) -/

/-- Counterexample to claim C6 as stated: with pixel ratio 2, configured
size range `[2, 10]` (stored scaled bounds `min = 4`, `max = 20`) and
`startValue: "random"`, the mid-range draw `u = 1/2` produces
`size.value = 24` — the sample from `[4, 20]` is multiplied by the pixel
ratio a second time, so the value is *not* within `[min, max]`. -/
theorem size_random_start_counterexample :
    (initSize randomSizeOpts 2 Option.none 0 1 0 0 0 (1/2) 1 0).value = 24 ∧
    (initSize randomSizeOpts 2 Option.none 0 1 0 0 0 (1/2) 1 0).min = 4 ∧
    (initSize randomSizeOpts 2 Option.none 0 1 0 0 0 (1/2) 1 0).max = 20 ∧
    ¬ ((initSize randomSizeOpts 2 Option.none 0 1 0 0 0 (1/2) 1 0).value ≤
        (initSize randomSizeOpts 2 Option.none 0 1 0 0 0 (1/2) 1 0).max) := by
  norm_num [initSize, randomSizeOpts, getRangeValue, getRangeMin, getRangeMax,
    randomInRange]

/-- Claim C6, amended: with the size animation enabled, `startValue:
"min"` starts at the stored minimum (the configured minimum scaled by
the pixel ratio) with status increasing; `"max"` (the default) starts at
the stored maximum with status decreasing; `"random"` starts at a
uniform sample from `[min, max]` multiplied by the pixel ratio once more
— within `[min, max]` when the pixel ratio is 1 — with status increasing
exactly when the coin draw is ≥ 1/2 (a fair coin under a uniform
draw). -/
theorem size_start_value_amended (opts : SizeOptions) (pxr : ℚ)
    (rss : Option ℚ) (css rf u0 uCount uDecay uRand uCoin uSync : ℚ)
    (s : SizeState)
    (hs : s = initSize opts pxr rss css rf u0 uCount uDecay uRand uCoin uSync)
    (hen : opts.animation.enable = true)
    (hmm : getRangeMin opts.value ≤ getRangeMax opts.value)
    (hu0 : 0 ≤ uRand) (hu1 : uRand < 1) :
    (opts.animation.startValue = StartValueType.min →
      s.value = getRangeMin opts.value * pxr ∧
      s.status = Option.some AnimationStatus.increasing) ∧
    (opts.animation.startValue = StartValueType.max →
      s.value = getRangeMax opts.value * pxr ∧
      s.status = Option.some AnimationStatus.decreasing) ∧
    (opts.animation.startValue = StartValueType.random →
      s.value =
        randomInRange (getRangeMin opts.value * pxr) (getRangeMax opts.value * pxr)
          uRand * pxr ∧
      s.status = Option.some
        (if uCoin ≥ 1/2 then AnimationStatus.increasing
         else AnimationStatus.decreasing) ∧
      (pxr = 1 →
        getRangeMin opts.value ≤ s.value ∧ s.value ≤ getRangeMax opts.value)) := by
  subst hs
  have hd' : 0 ≤ getRangeMax opts.value - getRangeMin opts.value := sub_nonneg.mpr hmm
  refine ⟨?_, ?_, ?_⟩ <;> intro hsv
  · constructor <;> simp [initSize, hen, hsv]
  · constructor <;> simp [initSize, hen, hsv]
  · refine ⟨by simp [initSize, hen, hsv], by simp [initSize, hen, hsv], ?_⟩
    intro hp
    subst hp
    constructor
    · simp only [initSize, hen, hsv, if_true, mul_one, randomInRange]
      nlinarith [mul_nonneg hu0 hd']
    · simp only [initSize, hen, hsv, if_true, mul_one, randomInRange]
      nlinarith [mul_nonneg (by linarith : (0:ℚ) ≤ 1 - uRand) hd']

/-- Witness for the amended C6: the spec scenario — `startValue: "min"`,
range `[2, 10]`, pixel ratio 1 — yields `size.value = 2` with status
increasing. -/
theorem size_start_value_amended_witness :
    (initSize minSizeOpts 1 Option.none 0 1 0 0 0 0 0 0).value = 2 ∧
    (initSize minSizeOpts 1 Option.none 0 1 0 0 0 0 0 0).status =
      Option.some AnimationStatus.increasing := by
  have h := (size_start_value_amended minSizeOpts 1 Option.none 0 1 0 0 0 0 0 0
    _ rfl rfl (by norm_num [minSizeOpts, getRangeMin, getRangeMax])
    le_rfl (by norm_num)).1 rfl
  refine ⟨?_, h.2⟩
  rw [h.1]
  norm_num [minSizeOpts, getRangeMin]

/-! ## Placement retry logic (C1) -/

theorem checkOverlap_eq_of_enabled (cfg : PlacementConfig) (pos : ICoordinates)
    (t N : ℕ) (hcoll : cfg.collisionsEnable = true)
    (hov : cfg.overlapEnable = false) (hret : cfg.retries = (N : ℤ)) :
    checkOverlap cfg pos t =
      if N < t then Except.error t else Except.ok (overlapsAny cfg pos) := by
  unfold checkOverlap
  rw [hcoll, hov, hret]
  simp only [Bool.not_true, Bool.false_eq_true, if_false]
  by_cases h : N < t
  · rw [if_pos ⟨by positivity, by exact_mod_cast h⟩, if_pos h]
  · rw [if_neg fun hc => h (by exact_mod_cast hc.2), if_neg h]

theorem checkOverlap_isOk_of_neg (cfg : PlacementConfig) (pos : ICoordinates)
    (t : ℕ) (h : cfg.retries < 0) :
    ∃ b, checkOverlap cfg pos t = Except.ok b := by
  unfold checkOverlap
  split
  · exact ⟨false, rfl⟩
  · split
    · exact ⟨false, rfl⟩
    · split
      · rename_i hc
        exact absurd hc.1 (not_le.mpr h)
      · exact ⟨_, rfl⟩

theorem calcPosition_retry_aux (cfg : PlacementConfig) (z : ℚ) (N : ℕ)
    (hcoll : cfg.collisionsEnable = true) (hov : cfg.overlapEnable = false)
    (hplug : ∀ x, pluginFirst cfg.plugins x = Option.none)
    (hret : cfg.retries = (N : ℤ)) :
    ∀ (fuel t : ℕ) (pos : Option ICoordinates), t ≤ N + 1 → N + 2 ≤ t + fuel →
      (∃ p, calcPosition cfg pos z t fuel = PlacementResult.placed p ∧
          overlapsAny cfg ⟨p.x, p.y⟩ = false) ∨
      calcPosition cfg pos z t fuel = PlacementResult.exhausted (N + 1) := by
  intro fuel
  induction fuel with
  | zero => intro t pos ht hf; omega
  | succ f ih =>
    intro t pos ht hf
    rw [calcPosition]
    simp only [hplug]
    rw [checkOverlap_eq_of_enabled cfg _ t N hcoll hov hret]
    by_cases htN : N < t
    · right
      have ht1 : t = N + 1 := by omega
      subst ht1
      rw [if_pos htN]
    · rw [if_neg htN]
      cases hB : overlapsAny cfg
          (fixCandidate cfg (calcExactPositionOrRandomFromSize cfg.sample t pos)) with
      | false =>
        left
        exact ⟨_, rfl, hB⟩
      | true =>
        exact ih (t + 1) Option.none (by omega) (by omega)

theorem calcPosition_no_exhaust_of_neg (cfg : PlacementConfig) (z : ℚ)
    (hneg : cfg.retries < 0) :
    ∀ (fuel t a : ℕ) (pos : Option ICoordinates),
      calcPosition cfg pos z t fuel ≠ PlacementResult.exhausted a := by
  intro fuel
  induction fuel with
  | zero =>
    intro t a pos h
    rw [calcPosition] at h
    cases h
  | succ f ih =>
    intro t a pos h
    rw [calcPosition] at h
    cases hp : pluginFirst cfg.plugins pos with
    | some c =>
      rw [hp] at h
      exact PlacementResult.noConfusion h
    | none =>
      simp only [hp] at h
      obtain ⟨b, hb⟩ := checkOverlap_isOk_of_neg cfg
        (fixCandidate cfg (calcExactPositionOrRandomFromSize cfg.sample t pos)) t hneg
      rw [hb] at h
      cases b
      · exact PlacementResult.noConfusion h
      · exact ih (t + 1) a Option.none h

theorem overlapsAny_eq_false_forall (cfg : PlacementConfig) (c : ICoordinates)
    (h : overlapsAny cfg c = false) :
    ∀ q ∈ cfg.existing,
      ((getRadius cfg.bubbleRadius cfg.sizeValue + q.radius : ℚ) : ℝ) ≤
        Real.sqrt ((distSq c q.pos : ℚ) : ℝ) := by
  intro q hq
  simp only [overlapsAny, List.any_eq_false] at h
  cases hb : distLtB c q.pos (getRadius cfg.bubbleRadius cfg.sizeValue + q.radius) with
  | false => exact (distLtB_eq_false_iff _ _ _).mp hb
  | true => exact absurd hb (h q hq)

/-- Claim C1, amended: provided no registered plugin overrides the
position, with collision detection enabled and overlap disallowed, a
configured non-negative retry limit N makes placement either return a
position whose Euclidean distance to every existing particle is at least
the sum of the two radii, or raise the placement-exhausted error after
exactly N + 1 fully scanned placement attempts; a negative retry limit
never raises the error (the recursion is bounded only by the fuel of the
embedding). -/
theorem placement_retry_spec (cfg : PlacementConfig) (z : ℚ)
    (pos : Option ICoordinates)
    (hcoll : cfg.collisionsEnable = true) (hov : cfg.overlapEnable = false)
    (hplug : ∀ x, pluginFirst cfg.plugins x = Option.none) :
    (∀ N fuel : ℕ, cfg.retries = (N : ℤ) → N + 2 ≤ fuel →
      (∃ p, calcPosition cfg pos z 0 fuel = PlacementResult.placed p ∧
        ∀ q ∈ cfg.existing,
          ((getRadius cfg.bubbleRadius cfg.sizeValue + q.radius : ℚ) : ℝ) ≤
            Real.sqrt ((distSq ⟨p.x, p.y⟩ q.pos : ℚ) : ℝ)) ∨
      calcPosition cfg pos z 0 fuel = PlacementResult.exhausted (N + 1)) ∧
    (cfg.retries < 0 → ∀ (fuel t a : ℕ) (e : Option ICoordinates),
      calcPosition cfg e z t fuel ≠ PlacementResult.exhausted a) := by
  constructor
  · intro N fuel hret hfuel
    rcases calcPosition_retry_aux cfg z N hcoll hov hplug hret fuel 0 pos
        (by omega) (by omega) with ⟨p, hp, hB⟩ | hE
    · exact Or.inl ⟨p, hp, overlapsAny_eq_false_forall cfg _ hB⟩
    · exact Or.inr hE
  · intro hneg fuel t a e
    exact calcPosition_no_exhaust_of_neg cfg z hneg fuel t a e

/-- Counterexample to claim C1 as stated: with collision detection
enabled, overlap disallowed and retry limit 0, a registered plugin
supplying position (0, 0) makes `calcPosition` return (0, 0) — at
distance 0 < 5 + 5 from the existing particle of radius 5 at (0, 0) —
and no placement-exhausted error is raised, contradicting the claimed
dichotomy. -/
theorem placement_plugin_bypass_counterexample :
    calcPosition pluginOverlapCfg Option.none 0 0 2 =
      PlacementResult.placed ⟨0, 0, 0⟩ ∧
    Real.sqrt ((distSq ⟨0, 0⟩ ⟨0, 0⟩ : ℚ) : ℝ) <
      ((getRadius pluginOverlapCfg.bubbleRadius pluginOverlapCfg.sizeValue +
          (5 : ℚ) : ℚ) : ℝ) ∧
    (∀ a, calcPosition pluginOverlapCfg Option.none 0 0 2 ≠
      PlacementResult.exhausted a) := by
  have h1 : calcPosition pluginOverlapCfg Option.none 0 0 2 =
      PlacementResult.placed ⟨0, 0, 0⟩ := by
    rw [calcPosition]
    rfl
  refine ⟨h1, ?_, fun a h => by rw [h1] at h; cases h⟩
  have h0 : ((distSq ⟨0, 0⟩ ⟨0, 0⟩ : ℚ) : ℝ) = 0 := by norm_num [distSq]
  rw [h0, Real.sqrt_zero]
  norm_num [getRadius, pluginOverlapCfg]

/-- Witness for the amended C1: at a plugin-free configuration with
retry limit 0 whose sampler always proposes the overlapping point, the
dichotomy holds at fuel 2 (materially: the error is raised after exactly
one scanned attempt). -/
theorem placement_retry_spec_witness :
    (∃ p, calcPosition overlapAlwaysCfg Option.none 0 0 2 =
        PlacementResult.placed p ∧
      ∀ q ∈ overlapAlwaysCfg.existing,
        ((getRadius overlapAlwaysCfg.bubbleRadius overlapAlwaysCfg.sizeValue +
            q.radius : ℚ) : ℝ) ≤
          Real.sqrt ((distSq ⟨p.x, p.y⟩ q.pos : ℚ) : ℝ)) ∨
    calcPosition overlapAlwaysCfg Option.none 0 0 2 =
      PlacementResult.exhausted (0 + 1) :=
  (placement_retry_spec overlapAlwaysCfg 0 Option.none rfl rfl
      (fun _ => rfl)).1 0 2 rfl (by norm_num)

end TSP
